import Mathlib

/-!
Verification of the AWS EKS MCP server (request validation and dispatch,
the EKS registry client, the credential bridge, and the cluster inspector).

The definitions below are a shallow embedding of the TypeScript sources:
  - `src/index.ts` (argument validators and the tool-call dispatch switch),
  - the EKS manager (`listClusters`, `getClusterStatus`, `createCluster`,
    `deleteCluster`, `getCallerIdentity`, `mapClusterToDetails`),
  - the Kubernetes client (`listClusterDeployments`, `configureEKSAuth`,
    `generateEKSToken`, the per-object projections and `calculateAge`).

JavaScript conventions kept by the embedding:
  - a missing object field is `undefined` (`Option.none` / `JSValue.undefined`);
  - `x || d` on strings falls back on `undefined` and on the empty string
    (both are falsy), on arrays only on `undefined` (arrays are truthy);
  - asynchronous functions that can reject are embedded as `Except String`,
    the thrown message in the `error` case;
  - a runtime TypeError (reading a property of `undefined`) is embedded as
    `Option.none` where it can occur;
  - machine numbers stand as `Int` (the values involved are exact integers);
    `Math.floor` of an integer quotient is `Int.fdiv` and the remainder
    operator `%` of nonnegative operands is `Int.tmod`.
-/

/-- A JavaScript value as the validators of `src/index.ts` see a raw
tool-call argument: strings, numbers, booleans, `null`, `undefined`,
arrays and plain objects (field list, first binding wins). -/
inductive JSValue where
  | str : String → JSValue
  | num : Int → JSValue
  | bool : Bool → JSValue
  | null : JSValue
  | undefined : JSValue
  | arr : List JSValue → JSValue
  | obj : List (String × JSValue) → JSValue

/-- The JavaScript `typeof` operator on the embedded values. `typeof null`,
`typeof []` and `typeof` of a plain object are all "object". -/
def jsTypeof (v : JSValue) : String :=
  match v with
  | .str _ => "string"
  | .num _ => "number"
  | .bool _ => "boolean"
  | .null => "object"
  | .undefined => "undefined"
  | .arr _ => "object"
  | .obj _ => "object"

/-- Property access `v[k]`: a missing field, or access on a value that is
not a plain object, yields `undefined`. -/
def getField (v : JSValue) (k : String) : JSValue :=
  match v with
  | .obj fields => (((fields.find? (fun p => p.1 == k)).map Prod.snd).getD .undefined)
  | _ => .undefined

/-- The `args !== null` test of the validators. -/
def isNullJS (v : JSValue) : Bool :=
  match v with
  | .null => true
  | _ => false

/-- The `Array.isArray` test of the validators. -/
def isJSArray (v : JSValue) : Bool :=
  match v with
  | .arr _ => true
  | _ => false

/-- The test `x === undefined` of the validators. -/
def isUndefJS (v : JSValue) : Bool :=
  match v with
  | .undefined => true
  | _ => false

/-- The call `xs.every(x => typeof x === "string")` of the validators; in
the source it is only reached behind an `Array.isArray` guard, so the
value of the non-array branch is never observed. -/
def jsEveryString (v : JSValue) : Bool :=
  match v with
  | .arr xs => xs.all (fun x => jsTypeof x == "string")
  | _ => false

/-- Validator `isValidCreateClusterArgs` of `src/index.ts`. -/
def isValidCreateClusterArgs (args : JSValue) : Bool :=
  jsTypeof args == "object" &&
  !(isNullJS args) &&
  jsTypeof (getField args "clusterName") == "string" &&
  jsTypeof (getField args "region") == "string" &&
  jsTypeof (getField args "kubernetesVersion") == "string" &&
  jsTypeof (getField args "roleArn") == "string" &&
  isJSArray (getField args "subnetIds") &&
  jsEveryString (getField args "subnetIds") &&
  (isUndefJS (getField args "securityGroupIds") ||
    (isJSArray (getField args "securityGroupIds") &&
     jsEveryString (getField args "securityGroupIds"))) &&
  (isUndefJS (getField args "publicAccessCidrs") ||
    (isJSArray (getField args "publicAccessCidrs") &&
     jsEveryString (getField args "publicAccessCidrs")))

/-- Validator `isValidClusterStatusArgs` of `src/index.ts`. -/
def isValidClusterStatusArgs (args : JSValue) : Bool :=
  jsTypeof args == "object" &&
  !(isNullJS args) &&
  jsTypeof (getField args "clusterName") == "string" &&
  (isUndefJS (getField args "region") || jsTypeof (getField args "region") == "string")

/-- Validator `isValidDeleteClusterArgs` of `src/index.ts`. -/
def isValidDeleteClusterArgs (args : JSValue) : Bool :=
  jsTypeof args == "object" &&
  !(isNullJS args) &&
  jsTypeof (getField args "clusterName") == "string" &&
  (isUndefJS (getField args "region") || jsTypeof (getField args "region") == "string")

/-- Validator `isValidListDeploymentsArgs` of `src/index.ts`. -/
def isValidListDeploymentsArgs (args : JSValue) : Bool :=
  jsTypeof args == "object" &&
  !(isNullJS args) &&
  jsTypeof (getField args "clusterName") == "string" &&
  (isUndefJS (getField args "region") || jsTypeof (getField args "region") == "string") &&
  (isUndefJS (getField args "namespace") || jsTypeof (getField args "namespace") == "string")

/-- The operation a validated tool call is dispatched to (the `handle...`
methods of `AWSEKSServer`), with the raw arguments it receives. -/
inductive ToolOp where
  | listClusters : ToolOp
  | getClusterStatus : JSValue → ToolOp
  | createCluster : JSValue → ToolOp
  | deleteCluster : JSValue → ToolOp
  | listDeployments : JSValue → ToolOp

/-- What the dispatch switch of `AWSEKSServer.setupToolHandlers` decides
before any downstream operation runs: dispatch to an operation, an
`InvalidParams` protocol error, or a `MethodNotFound` protocol error. -/
inductive RouteResult where
  | dispatched : ToolOp → RouteResult
  | invalidParams : String → RouteResult
  | methodNotFound : String → RouteResult

/-- The `switch (request.params.name)` of `AWSEKSServer.setupToolHandlers`:
look the tool name up, validate the raw arguments, and either dispatch or
fail with the protocol error the source throws. -/
def callToolRoute (name : String) (args : JSValue) : RouteResult :=
  if name == "list_eks_clusters" then
    .dispatched .listClusters
  else if name == "get_eks_cluster_status" then
    if isValidClusterStatusArgs args then .dispatched (.getClusterStatus args)
    else .invalidParams "Invalid arguments for get_eks_cluster_status"
  else if name == "create_eks_cluster" then
    if isValidCreateClusterArgs args then .dispatched (.createCluster args)
    else .invalidParams "Invalid arguments for create_eks_cluster"
  else if name == "delete_eks_cluster" then
    if isValidDeleteClusterArgs args then .dispatched (.deleteCluster args)
    else .invalidParams "Invalid arguments for delete_eks_cluster"
  else if name == "list_cluster_deployments" then
    if isValidListDeploymentsArgs args then .dispatched (.listDeployments args)
    else .invalidParams "Invalid arguments for list_cluster_deployments"
  else
    .methodNotFound ("Unknown tool: " ++ name)

/-- `CreateClusterRequest` of `src/types.ts`; the two optional fields are
`Option` (`undefined` when absent). -/
structure CreateClusterRequest where
  clusterName : String
  region : String
  kubernetesVersion : String
  roleArn : String
  subnetIds : List String
  securityGroupIds : Option (List String)
  publicAccessCidrs : Option (List String)

/-- The `resourcesVpcConfig` block of the outgoing `CreateClusterCommand`. -/
structure VpcConfigRequest where
  subnetIds : List String
  securityGroupIds : Option (List String)
  endpointPrivateAccess : Bool
  endpointPublicAccess : Bool
  publicAccessCidrs : List String

/-- One entry of the `clusterLogging` array of the outgoing command. -/
structure LogSetupRequest where
  types : List String
  enabled : Bool

/-- The `logging` block of the outgoing command. -/
structure LoggingRequest where
  clusterLogging : List LogSetupRequest

/-- The outgoing `CreateClusterCommand` as `EKSManager.createCluster`
builds it. -/
structure CreateClusterCommand where
  name : String
  version : String
  roleArn : String
  resourcesVpcConfig : VpcConfigRequest
  logging : LoggingRequest

/-- JavaScript `x || d` where `x` is an optional array: an array is truthy
even when empty, so only `undefined` falls back to the default. -/
def jsOrArr (x : Option (List String)) (d : List String) : List String :=
  match x with
  | some xs => xs
  | none => d

/-- The command construction of `EKSManager.createCluster` (the argument of
`new CreateClusterCommand({...})`): private and public endpoint access are
hardwired `true`, the five log types are enabled unconditionally, and the
public-access CIDR list defaults to `0.0.0.0/0` via `||`. -/
def buildCreateClusterCommand (request : CreateClusterRequest) : CreateClusterCommand :=
  { name := request.clusterName
    version := request.kubernetesVersion
    roleArn := request.roleArn
    resourcesVpcConfig :=
      { subnetIds := request.subnetIds
        securityGroupIds := request.securityGroupIds
        endpointPrivateAccess := true
        endpointPublicAccess := true
        publicAccessCidrs := jsOrArr request.publicAccessCidrs ["0.0.0.0/0"] }
    logging :=
      { clusterLogging :=
          [{ types := ["api", "audit", "authenticator", "controllerManager", "scheduler"]
             enabled := true }] } }

/-- JavaScript `x || d` on an optional string: both `undefined` and the
empty string are falsy. -/
def jsOrStr (v : Option String) (d : String) : String :=
  match v with
  | some s => if s == "" then d else s
  | none => d

/-- `EKSCredentials` of `src/types.ts` (all key fields optional). -/
structure EKSCredentials where
  accessKeyId : Option String
  secretAccessKey : Option String
  sessionToken : Option String
  region : String

/-- The static credential triple an AWS SDK client is configured with. -/
structure AwsCredentials where
  accessKeyId : Option String
  secretAccessKey : Option String
  sessionToken : Option String

/-- The configuration of one AWS SDK client: its region and the explicit
static credentials it was constructed with, when any. -/
structure ClientConfig where
  region : String
  credentials : Option AwsCredentials

/-- The mutable state of an `EKSManager`: the configurations of its
`eksClient` and its `stsClient`. -/
structure ManagerState where
  eksConfig : ClientConfig
  stsConfig : ClientConfig

/-- The `EKSManager` constructor: with explicit credentials, both clients
get the credential region and the static keys; without, both get
`process.env.AWS_REGION || "us-east-1"` and no static credentials. -/
def mkEKSManager (credentials : Option EKSCredentials) (envAwsRegion : Option String) :
    ManagerState :=
  let config : ClientConfig :=
    match credentials with
    | some c =>
        { region := c.region
          credentials := some ⟨c.accessKeyId, c.secretAccessKey, c.sessionToken⟩ }
    | none => { region := jsOrStr envAwsRegion "us-east-1", credentials := none }
  ⟨config, config⟩

/-- The guard `if (region && region !== this.eksClient.config.region)` of
`getClusterStatus` and `deleteCluster`: a provided, truthy (non-empty)
region that differs replaces the EKS client by `new EKSClient({ region })`
— region only, no credentials carried over. -/
def updateRegionIfProvided (eks : ClientConfig) (region : Option String) : ClientConfig :=
  match region with
  | some r => if r != "" && r != eks.region then { region := r, credentials := none } else eks
  | none => eks

/-- The guard `if (request.region !== this.eksClient.config.region)` of
`createCluster`: any differing region (the request field is mandatory, no
truthiness test) replaces the EKS client by `new EKSClient({ region })`. -/
def updateRegionForCreate (eks : ClientConfig) (r : String) : ClientConfig :=
  if r != eks.region then { region := r, credentials := none } else eks

/-- The `resourcesVpcConfig` of a described cluster as the AWS SDK returns
it (every field optional). -/
structure VpcConfigResponse where
  subnetIds : Option (List String)
  securityGroupIds : Option (List String)
  endpointPrivateAccess : Option Bool
  endpointPublicAccess : Option Bool
  publicAccessCidrs : Option (List String)

/-- One entry of the `clusterLogging` array of a described cluster. -/
structure ClusterLoggingEntry where
  types : Option (List String)
  enabled : Option Bool

/-- The `logging` block of a described cluster. -/
structure ClusterLogging where
  clusterLogging : Option (List ClusterLoggingEntry)

/-- The AWS `Cluster` object `DescribeClusterCommand` and
`CreateClusterCommand` return. The fields the source reads through a
non-null assertion (`cluster.name!` and the like) stand as plain values;
the fields it reads through optional chaining stand as `Option`. -/
structure Cluster where
  name : String
  arn : String
  status : String
  version : String
  endpoint : String
  createdAt : Int
  roleArn : String
  platformVersion : String
  resourcesVpcConfig : Option VpcConfigResponse
  logging : Option ClusterLogging
  tags : Option (List (String × String))

/-- The `endpointConfigResponse` block of `ClusterDetails` (`src/types.ts`). -/
structure EndpointConfigResponse where
  privateAccess : Bool
  publicAccess : Bool
  publicAccessCidrs : List String

/-- The `vpcConfig` block of `ClusterDetails` (`src/types.ts`). -/
structure VpcConfigDetails where
  subnetIds : List String
  securityGroupIds : List String
  endpointConfigResponse : EndpointConfigResponse

/-- One entry of `logging.clusterLogging` of `ClusterDetails`. -/
structure LoggingDetailsEntry where
  types : List String
  enabled : Bool

/-- The `logging` block of `ClusterDetails`. -/
structure LoggingDetails where
  clusterLogging : List LoggingDetailsEntry

/-- `ClusterDetails` of `src/types.ts`. -/
structure ClusterDetails where
  name : String
  arn : String
  status : String
  version : String
  endpoint : String
  createdAt : Int
  roleArn : String
  vpcConfig : VpcConfigDetails
  logging : LoggingDetails
  platformVersion : String
  tags : List (String × String)

/-- `EKSManager.mapClusterToDetails`: normalize an AWS `Cluster` into the
`ClusterDetails` shape, defaulting every absent optional field. -/
def mapClusterToDetails (cluster : Cluster) : ClusterDetails :=
  { name := cluster.name
    arn := cluster.arn
    status := cluster.status
    version := cluster.version
    endpoint := cluster.endpoint
    createdAt := cluster.createdAt
    roleArn := cluster.roleArn
    vpcConfig :=
      { subnetIds := jsOrArr (cluster.resourcesVpcConfig.bind VpcConfigResponse.subnetIds) []
        securityGroupIds :=
          jsOrArr (cluster.resourcesVpcConfig.bind VpcConfigResponse.securityGroupIds) []
        endpointConfigResponse :=
          { privateAccess :=
              (cluster.resourcesVpcConfig.bind VpcConfigResponse.endpointPrivateAccess).getD false
            publicAccess :=
              (cluster.resourcesVpcConfig.bind VpcConfigResponse.endpointPublicAccess).getD false
            publicAccessCidrs :=
              jsOrArr (cluster.resourcesVpcConfig.bind VpcConfigResponse.publicAccessCidrs) [] } }
    logging :=
      { clusterLogging :=
          ((cluster.logging.bind ClusterLogging.clusterLogging).map
            (List.map fun log =>
              ({ types := log.types.getD [], enabled := log.enabled.getD false } :
                LoggingDetailsEntry))).getD [] }
    platformVersion := cluster.platformVersion
    tags := cluster.tags.getD [] }

/-- `ClusterInfo` of `src/types.ts` (one entry of the `listClusters`
result). -/
structure ClusterInfo where
  name : String
  region : String
  status : String
deriving DecidableEq

/-- `OperationStatus` of `src/types.ts`; `status` is the literal union
"SUCCESS" or "FAILURE". -/
structure OperationStatus where
  status : String
  message : String
  clusterDetails : Option ClusterDetails

namespace EKSManager

/-- The body of the per-cluster callback inside `EKSManager.listClusters`:
describe one cluster name; its own `try/catch` degrades any failure —
a rejected describe call, or the TypeError of reading `cluster.name` when
the response carries no cluster — to a `status: "UNKNOWN"` entry keeping
the enumerated name and the current region. -/
def describeClusterEntry (region : String) (describe : String → Except String (Option Cluster))
    (clusterName : String) : ClusterInfo :=
  match describe clusterName with
  | .ok (some cluster) => { name := cluster.name, region := region, status := cluster.status }
  | .ok none => { name := clusterName, region := region, status := "UNKNOWN" }
  | .error _ => { name := clusterName, region := region, status := "UNKNOWN" }

/-- `EKSManager.listClusters`: enumerate the cluster names
(`listResult` is the outcome of the `ListClustersCommand`; `none` stands
for a response without a `clusters` field), then describe each name
(`describe` is the per-name outcome of the `DescribeClusterCommand`).
A failure of the enumeration itself is rethrown wrapped; per-name
failures are absorbed by `describeClusterEntry`. -/
def listClusters (st : ManagerState) (listResult : Except String (Option (List String)))
    (describe : String → Except String (Option Cluster)) :
    Except String (List ClusterInfo) :=
  match listResult with
  | .error e => .error ("Failed to list EKS clusters: " ++ e)
  | .ok none => .ok []
  | .ok (some clusters) => .ok (clusters.map (describeClusterEntry st.eksConfig.region describe))

/-- `EKSManager.getClusterStatus`: update the region when a truthy,
different one is provided, send the `DescribeClusterCommand`
(`send`, as a function of the client configuration in effect), and map
the cluster; every failure — the rejected call or the missing-cluster
throw — is rethrown wrapped. The returned state keeps the possibly
replaced EKS client. -/
def getClusterStatus (st : ManagerState) (clusterName : String) (region : Option String)
    (send : ClientConfig → Except String (Option Cluster)) :
    Except String ClusterDetails × ManagerState :=
  let eks := updateRegionIfProvided st.eksConfig region
  let st2 : ManagerState := ⟨eks, st.stsConfig⟩
  match send eks with
  | .error e => (.error ("Failed to get cluster status: " ++ e), st2)
  | .ok none => (.error ("Failed to get cluster status: Cluster " ++ clusterName ++ " not found"), st2)
  | .ok (some cluster) => (.ok (mapClusterToDetails cluster), st2)

/-- `EKSManager.createCluster`: update the region when the request names a
different one, send the command built by `buildCreateClusterCommand`, and
catch every failure into a `FAILURE` status — the function resolves with
an `OperationStatus` instead of rejecting. -/
def createCluster (st : ManagerState) (request : CreateClusterRequest)
    (send : ClientConfig → CreateClusterCommand → Except String (Option Cluster)) :
    Except String OperationStatus × ManagerState :=
  let eks := updateRegionForCreate st.eksConfig request.region
  let st2 : ManagerState := ⟨eks, st.stsConfig⟩
  match send eks (buildCreateClusterCommand request) with
  | .error e =>
      (.ok { status := "FAILURE", message := "Failed to create cluster: " ++ e,
             clusterDetails := none }, st2)
  | .ok none =>
      (.ok { status := "FAILURE",
             message := "Failed to create cluster: Failed to create cluster - no cluster data returned",
             clusterDetails := none }, st2)
  | .ok (some cluster) =>
      (.ok { status := "SUCCESS",
             message := "Cluster " ++ request.clusterName ++ " creation initiated successfully",
             clusterDetails := some (mapClusterToDetails cluster) }, st2)

/-- `EKSManager.deleteCluster`: update the region when a truthy, different
one is provided, send the `DeleteClusterCommand`, and catch every failure
into a `FAILURE` status. -/
def deleteCluster (st : ManagerState) (clusterName : String) (region : Option String)
    (send : ClientConfig → Except String Unit) :
    Except String OperationStatus × ManagerState :=
  let eks := updateRegionIfProvided st.eksConfig region
  let st2 : ManagerState := ⟨eks, st.stsConfig⟩
  match send eks with
  | .error e =>
      (.ok { status := "FAILURE", message := "Failed to delete cluster: " ++ e,
             clusterDetails := none }, st2)
  | .ok _ =>
      (.ok { status := "SUCCESS",
             message := "Cluster " ++ clusterName ++ " deletion initiated successfully",
             clusterDetails := none }, st2)

end EKSManager

/-- The response of the STS `GetCallerIdentityCommand`. -/
structure CallerIdentity where
  account : Option String
  arn : Option String
  userId : Option String

/-- `EKSManager.getCallerIdentity`: forward the STS call outcome,
rethrowing a failure wrapped in the explicit authentication message. -/
def getCallerIdentitySts (sendResult : Except String CallerIdentity) :
    Except String CallerIdentity :=
  match sendResult with
  | .error e => .error ("Failed to get caller identity: " ++ e)
  | .ok ident => .ok ident

/-- One effect of the credential-bridging sequence, in the order
`configureEKSAuth` performs it: the STS identity check, the token
construction, the kubeconfig load. -/
inductive AuthEvent where
  | getCallerIdentity : AuthEvent
  | generateToken : String → String → AuthEvent
  | loadKubeConfig : AuthEvent
deriving DecidableEq

/-- The JSON text `JSON.stringify({cluster, region, timestamp})` that
`generateEKSToken` encodes (the names hold no characters JSON escapes in
practice; escaping is not modelled). -/
def jsonClusterInfo (clusterName region : String) (timestamp : Int) : String :=
  "\x7b\"cluster\":\"" ++ clusterName ++ "\",\"region\":\"" ++ region ++
    "\",\"timestamp\":" ++ toString timestamp ++ "\x7d"

/-- `K8sClient.generateEKSToken`: the fixed scheme marker `k8s-aws-v1.`
followed by the base64 encoding (`base64encode`, kept abstract) of the
cluster/region/timestamp record. -/
def generateEKSToken (base64encode : String → String) (clusterName region : String)
    (timestamp : Int) : String :=
  "k8s-aws-v1." ++ base64encode (jsonClusterInfo clusterName region timestamp)

/-- A cluster entry of the kubeconfig `configureEKSAuth` loads. The
`ClusterDetails` shape built by `mapClusterToDetails` carries no
`certificateAuthority` field, so the optional chain
`clusterDetails.certificateAuthority?.data` of the source yields
`undefined`; the embedding keeps that as `none`. -/
structure KubeCluster where
  name : String
  server : String
  certificateAuthorityData : Option String
  skipTLSVerify : Bool

/-- A user entry of the kubeconfig: the name and the bearer token. -/
structure KubeUser where
  name : String
  token : String

/-- A context entry of the kubeconfig. -/
structure KubeContext where
  name : String
  cluster : String
  user : String

/-- The kubeconfig `configureEKSAuth` assembles via `loadFromOptions`. -/
structure KubeConfig where
  clusters : List KubeCluster
  users : List KubeUser
  contexts : List KubeContext
  currentContext : String

/-- `K8sClient.configureEKSAuth`: resolve the caller identity first
(`identityResult` is the outcome of `EKSManager.getCallerIdentity`); only
then build the token and load the kubeconfig. The second component
records the external effects actually performed, in order. A failed
identity check is caught and rethrown wrapped, before any token exists. -/
def configureEKSAuth (identityResult : Except String CallerIdentity)
    (base64encode : String → String) (clusterDetails : ClusterDetails) (region : String)
    (now : Int) : Except String KubeConfig × List AuthEvent :=
  match identityResult with
  | .error e => (.error ("Failed to configure EKS authentication: " ++ e), [.getCallerIdentity])
  | .ok _ =>
      let token := generateEKSToken base64encode clusterDetails.name region now
      (.ok { clusters := [{ name := clusterDetails.name, server := clusterDetails.endpoint,
                            certificateAuthorityData := none, skipTLSVerify := false }]
             users := [{ name := clusterDetails.name ++ "-user", token := token }]
             contexts := [{ name := clusterDetails.name, cluster := clusterDetails.name,
                            user := clusterDetails.name ++ "-user" }]
             currentContext := clusterDetails.name },
       [.getCallerIdentity, .generateToken clusterDetails.name region, .loadKubeConfig])

/-- `K8sClient.calculateAge`: the difference between now and the creation
timestamp (both in milliseconds), floored into days, then hours of the
part below a day, then minutes of the part below an hour; the first
positive unit wins, minutes by default (so `0m` can render); a missing
timestamp renders `unknown`. -/
def calculateAge (creationTimestamp : Option Int) (now : Int) : String :=
  match creationTimestamp with
  | none => "unknown"
  | some created =>
      let diffMs := now - created
      let days := Int.fdiv diffMs 86400000
      let hours := Int.fdiv (Int.tmod diffMs 86400000) 3600000
      let minutes := Int.fdiv (Int.tmod diffMs 3600000) 60000
      if days > 0 then toString days ++ "d"
      else if hours > 0 then toString hours ++ "h"
      else toString minutes ++ "m"

/-- `metadata` of a Kubernetes object (the fields the projections read). -/
structure ObjectMeta where
  name : Option String
  «namespace» : Option String
  creationTimestamp : Option Int
deriving DecidableEq

/-- One `containerStatuses` entry of a pod. -/
structure ContainerStatus where
  ready : Bool
  restartCount : Option Int
deriving DecidableEq

/-- `status` of a pod (the fields the projections read). -/
structure PodStatus where
  phase : Option String
  containerStatuses : Option (List ContainerStatus)
deriving DecidableEq

/-- `spec` of a pod (the fields the projections read). -/
structure PodSpec where
  nodeName : Option String
deriving DecidableEq

/-- A pod as the cluster API returns it. -/
structure V1Pod where
  metadata : Option ObjectMeta
  spec : Option PodSpec
  status : Option PodStatus
deriving DecidableEq

/-- One `ingress` entry of a load-balancer status. -/
structure LoadBalancerIngress where
  ip : Option String
  hostname : Option String
deriving DecidableEq

/-- The `loadBalancer` block of a service status. -/
structure LoadBalancerStatus where
  ingress : Option (List LoadBalancerIngress)
deriving DecidableEq

/-- `status` of a service. -/
structure ServiceStatus where
  loadBalancer : Option LoadBalancerStatus
deriving DecidableEq

/-- One `ports` entry of a service spec. -/
structure ServicePort where
  port : Int
  protocol : Option String
  nodePort : Option Int
deriving DecidableEq

/-- `spec` of a service (the fields the projections read). -/
structure ServiceSpec where
  type : Option String
  clusterIP : Option String
  externalIPs : Option (List String)
  ports : Option (List ServicePort)
deriving DecidableEq

/-- A service as the cluster API returns it. -/
structure V1Service where
  metadata : Option ObjectMeta
  spec : Option ServiceSpec
  status : Option ServiceStatus
deriving DecidableEq

/-- `PodInfo` of `src/types.ts`. -/
structure PodInfo where
  name : String
  «namespace» : String
  status : String
  ready : String
  restarts : Int
  age : String
  node : String
deriving DecidableEq

/-- `ServiceInfo` of `src/types.ts`. -/
structure ServiceInfo where
  name : String
  «namespace» : String
  type : String
  clusterIP : String
  externalIP : String
  ports : String
  age : String
deriving DecidableEq

/-- `DeploymentsInfo` of `src/types.ts`. -/
structure DeploymentsInfo where
  pods : List PodInfo
  services : List ServiceInfo
deriving DecidableEq

/-- `K8sClient.getPodReadyStatus`: `ready/total` over the container status
entries; a pod without the `containerStatuses` field renders `0/0` (an
empty list also renders `0/0`, through the count). -/
def getPodReadyStatus (pod : V1Pod) : String :=
  match pod.status.bind PodStatus.containerStatuses with
  | none => "0/0"
  | some statuses =>
      toString (statuses.filter ContainerStatus.ready).length ++ "/" ++
        toString statuses.length

/-- `K8sClient.getPodRestartCount`: the sum of the per-container restart
counters, an absent counter counting 0. -/
def getPodRestartCount (pod : V1Pod) : Int :=
  match pod.status.bind PodStatus.containerStatuses with
  | none => 0
  | some statuses => statuses.foldl (fun total status => total + status.restartCount.getD 0) 0

/-- The optional chain `service.status?.loadBalancer?.ingress`. -/
def serviceLBIngress (service : V1Service) : Option (List LoadBalancerIngress) :=
  (service.status.bind ServiceStatus.loadBalancer).bind LoadBalancerStatus.ingress

/-- `K8sClient.getExternalIP`. The ingress array, when present, is truthy
even when empty; the source then reads `ingress[0].ip` on `undefined`,
which throws a TypeError — embedded as `none`. Otherwise the first
ingress yields its ip, else its hostname, else `<pending>` (empty strings
being falsy); with no ingress array, explicit external IPs are joined
with commas when any, else `<none>`. -/
def getExternalIP (service : V1Service) : Option String :=
  match serviceLBIngress service with
  | some [] => none
  | some (ingress :: _) => some (jsOrStr ingress.ip (jsOrStr ingress.hostname "<pending>"))
  | none =>
      match service.spec.bind ServiceSpec.externalIPs with
      | some ips => if ips.length > 0 then some (String.intercalate "," ips) else some "<none>"
      | none => some "<none>"

/-- The rendering of one service port by `K8sClient.getServicePorts`:
`port:nodePort/protocol` when the node port is truthy (assigned and not
0), else `port/protocol`, the protocol defaulting to TCP. -/
def servicePortString (port : ServicePort) : String :=
  let protocol := jsOrStr port.protocol "TCP"
  match port.nodePort with
  | some np =>
      if np == 0 then toString port.port ++ "/" ++ protocol
      else toString port.port ++ ":" ++ toString np ++ "/" ++ protocol
  | none => toString port.port ++ "/" ++ protocol

/-- `K8sClient.getServicePorts`: the declared ports joined with commas, or
`<none>` when the field is absent or the list empty. -/
def getServicePorts (service : V1Service) : String :=
  match service.spec.bind ServiceSpec.ports with
  | none => "<none>"
  | some ports =>
      if ports.length == 0 then "<none>"
      else String.intercalate "," (ports.map servicePortString)

/-- The pod projection inside `K8sClient.listClusterDeployments`. -/
def podToInfo (now : Int) (pod : V1Pod) : PodInfo :=
  { name := jsOrStr (pod.metadata.bind ObjectMeta.name) "unknown"
    «namespace» := jsOrStr (pod.metadata.bind (fun m => m.«namespace»)) "default"
    status := jsOrStr (pod.status.bind PodStatus.phase) "Unknown"
    ready := getPodReadyStatus pod
    restarts := getPodRestartCount pod
    age := calculateAge (pod.metadata.bind ObjectMeta.creationTimestamp) now
    node := jsOrStr (pod.spec.bind PodSpec.nodeName) "unknown" }

/-- The service projection inside `K8sClient.listClusterDeployments`;
`none` when `getExternalIP` throws. -/
def serviceToInfo (now : Int) (service : V1Service) : Option ServiceInfo :=
  match getExternalIP service with
  | none => none
  | some extIp =>
      some { name := jsOrStr (service.metadata.bind ObjectMeta.name) "unknown"
             «namespace» := jsOrStr (service.metadata.bind (fun m => m.«namespace»)) "default"
             type := jsOrStr (service.spec.bind ServiceSpec.type) "ClusterIP"
             clusterIP := jsOrStr (service.spec.bind ServiceSpec.clusterIP) "None"
             externalIP := extIp
             ports := getServicePorts service
             age := calculateAge (service.metadata.bind ObjectMeta.creationTimestamp) now }

/-- The target-namespace computation of `K8sClient.listClusterDeployments`:
`namespace === "all" || !namespace ? undefined : namespace` — the
sentinel `all`, an absent argument and the (falsy) empty string all mean
no filtering. -/
def targetNamespace (nsArg : Option String) : Option String :=
  match nsArg with
  | none => none
  | some ns => if ns == "all" || ns == "" then none else some ns

/-- The pod filter of `K8sClient.listClusterDeployments`: with a target
namespace, keep the pods whose `metadata?.namespace` strictly equals it. -/
def filterPodsByNamespace (target : Option String) (pods : List V1Pod) : List V1Pod :=
  match target with
  | none => pods
  | some t => pods.filter (fun pod => pod.metadata.bind (fun m => m.«namespace») == some t)

/-- The service filter of `K8sClient.listClusterDeployments`. -/
def filterServicesByNamespace (target : Option String) (services : List V1Service) :
    List V1Service :=
  match target with
  | none => services
  | some t => services.filter (fun service => service.metadata.bind (fun m => m.«namespace») == some t)

/-- The message of the TypeError thrown when `getExternalIP` reads the
first entry of an empty ingress array (embedded without the exact
platform wording). -/
def typeErrorReadingIp : String := "TypeError: Cannot read properties of undefined"

/-- `K8sClient.listClusterDeployments`: resolve the cluster
(`clusterStatusResult` is the outcome of `EKSManager.getClusterStatus`),
bridge the credentials via `configureEKSAuth` with `region || "us-east-1"`,
fetch all pods and all services across every namespace (`podsResult`,
`servicesResult`), filter both lists locally by the target namespace and
project them. Every failure of a step — including a projection TypeError —
is caught once and rethrown wrapped; there is no partial result. -/
def listClusterDeployments (clusterStatusResult : Except String ClusterDetails)
    (identityResult : Except String CallerIdentity) (base64encode : String → String)
    (podsResult : Except String (List V1Pod)) (servicesResult : Except String (List V1Service))
    (region : Option String) (nsArg : Option String) (now : Int) :
    Except String DeploymentsInfo :=
  match clusterStatusResult with
  | .error e => .error ("Failed to list cluster deployments: " ++ e)
  | .ok clusterDetails =>
      match (configureEKSAuth identityResult base64encode clusterDetails
              (jsOrStr region "us-east-1") now).1 with
      | .error e => .error ("Failed to list cluster deployments: " ++ e)
      | .ok _ =>
          match podsResult with
          | .error e => .error ("Failed to list cluster deployments: " ++ e)
          | .ok podItems =>
              match servicesResult with
              | .error e => .error ("Failed to list cluster deployments: " ++ e)
              | .ok serviceItems =>
                  let target := targetNamespace nsArg
                  let filteredPods := filterPodsByNamespace target podItems
                  let filteredServices := filterServicesByNamespace target serviceItems
                  match filteredServices.mapM (serviceToInfo now) with
                  | none => .error ("Failed to list cluster deployments: " ++ typeErrorReadingIp)
                  | some svcInfos => .ok { pods := filteredPods.map (podToInfo now),
                                           services := svcInfos }

/-- Spec-side description of "an array of strings" (any length, the empty
array permitted), used to compare the validators against the contract. -/
def StringArrayVal (v : JSValue) : Prop :=
  ∃ xs, v = JSValue.arr xs ∧ ∀ x ∈ xs, ∃ s, x = JSValue.str s

/-- Spec-side contract of the `create_eks_cluster` arguments as the code
enforces it: an object whose `clusterName`, `region`, `kubernetesVersion`
and `roleArn` are strings, whose `subnetIds` is an array of strings (of
any length), and whose `securityGroupIds` and `publicAccessCidrs`, when
present, are arrays of strings. -/
def CreateClusterArgsSpec (args : JSValue) : Prop :=
  (∃ fields, args = JSValue.obj fields) ∧
  (∃ s, getField args "clusterName" = JSValue.str s) ∧
  (∃ s, getField args "region" = JSValue.str s) ∧
  (∃ s, getField args "kubernetesVersion" = JSValue.str s) ∧
  (∃ s, getField args "roleArn" = JSValue.str s) ∧
  StringArrayVal (getField args "subnetIds") ∧
  (getField args "securityGroupIds" = JSValue.undefined ∨
    StringArrayVal (getField args "securityGroupIds")) ∧
  (getField args "publicAccessCidrs" = JSValue.undefined ∨
    StringArrayVal (getField args "publicAccessCidrs"))

/-- Spec-side contract of the `get_eks_cluster_status` and
`delete_eks_cluster` arguments as the code enforces it: an object whose
`clusterName` is a string — any string, the empty one included — with
`region`, when present, a string. -/
def ClusterNameArgsSpec (args : JSValue) : Prop :=
  (∃ fields, args = JSValue.obj fields) ∧
  (∃ s, getField args "clusterName" = JSValue.str s) ∧
  (getField args "region" = JSValue.undefined ∨ ∃ s, getField args "region" = JSValue.str s)

/-- Arguments for `create_eks_cluster` that are well-typed but carry an
empty `subnetIds` array. -/
def emptySubnetArgs : JSValue :=
  JSValue.obj [("clusterName", JSValue.str "demo"), ("region", JSValue.str "us-east-1"),
    ("kubernetesVersion", JSValue.str "1.28"),
    ("roleArn", JSValue.str "arn:aws:iam::123456789012:role/eks"),
    ("subnetIds", JSValue.arr [])]

/-- Arguments whose `clusterName` is the empty string. -/
def emptyNameArgs : JSValue :=
  JSValue.obj [("clusterName", JSValue.str "")]

/-- A create request carrying an explicit public-access CIDR list. -/
def passthroughRequest : CreateClusterRequest :=
  { clusterName := "demo", region := "us-east-1", kubernetesVersion := "1.28",
    roleArn := "arn:aws:iam::123456789012:role/eks", subnetIds := ["subnet-1", "subnet-2"],
    securityGroupIds := none, publicAccessCidrs := some ["10.0.0.0/8"] }

/-- A create request without a public-access CIDR list. -/
def defaultCidrRequest : CreateClusterRequest :=
  { clusterName := "demo", region := "us-east-1", kubernetesVersion := "1.28",
    roleArn := "arn:aws:iam::123456789012:role/eks", subnetIds := ["subnet-1"],
    securityGroupIds := none, publicAccessCidrs := none }

/-- A described cluster with the given name, in status ACTIVE. -/
def exCluster (n : String) : Cluster :=
  { name := n, arn := "arn:aws:eks:us-east-1:123456789012:cluster/" ++ n, status := "ACTIVE",
    version := "1.28", endpoint := "https://example.eks.amazonaws.com", createdAt := 0,
    roleArn := "arn:aws:iam::123456789012:role/eks", platformVersion := "eks.1",
    resourcesVpcConfig := none, logging := none, tags := none }

/-- A describe function that fails on the cluster named `bad` and succeeds
elsewhere. -/
def exDescribe (n : String) : Except String (Option Cluster) :=
  if n == "bad" then Except.error "boom" else Except.ok (some (exCluster n))

/-- A manager built without explicit credentials and without an
`AWS_REGION` environment variable (region defaults to `us-east-1`). -/
def exState : ManagerState := mkEKSManager none none

/-- A manager built with explicit static credentials for `us-east-1`. -/
def c9State : ManagerState :=
  mkEKSManager
    (some { accessKeyId := some "AKIAEXAMPLE"
            secretAccessKey := some "secretkey"
            sessionToken := none
            region := "us-east-1" }) none

/-- A service whose load balancer reports an empty ingress list. -/
def emptyIngressService : V1Service :=
  { metadata := none, spec := none,
    status := some { loadBalancer := some { ingress := some [] } } }

/-- A service whose first load-balancer ingress carries an IP. -/
def lbIpService : V1Service :=
  { metadata := none, spec := none,
    status := some ⟨some ⟨some [⟨some "203.0.113.7", none⟩]⟩⟩ }

theorem jsTypeof_string_iff (v : JSValue) :
    jsTypeof v = "string" ↔ ∃ s, v = JSValue.str s := by
  cases v <;> simp [jsTypeof]

theorem jsTypeof_obj (fields : List (String × JSValue)) :
    jsTypeof (JSValue.obj fields) = "object" := rfl

theorem isNullJS_obj (fields : List (String × JSValue)) :
    isNullJS (JSValue.obj fields) = false := rfl

theorem isJSArray_iff (v : JSValue) : isJSArray v = true ↔ ∃ xs, v = JSValue.arr xs := by
  cases v <;> simp [isJSArray]

theorem StringArrayVal.isArr {v : JSValue} (h : StringArrayVal v) :
    ∃ xs, v = JSValue.arr xs :=
  h.imp fun _ hxs => hxs.1

theorem isUndefJS_iff (v : JSValue) : isUndefJS v = true ↔ v = JSValue.undefined := by
  cases v <;> simp [isUndefJS]

theorem jsEveryString_iff (v : JSValue) : jsEveryString v = true ↔ StringArrayVal v := by
  cases v <;> simp [jsEveryString, StringArrayVal, List.all_eq_true, jsTypeof_string_iff]

theorem isValidCreateClusterArgs_iff (args : JSValue) :
    isValidCreateClusterArgs args = true ↔ CreateClusterArgsSpec args := by
  constructor
  · intro h
    cases args with
    | obj fields =>
        simp [isValidCreateClusterArgs, jsTypeof_obj, isNullJS_obj, jsTypeof_string_iff,
          isJSArray_iff, isUndefJS_iff, jsEveryString_iff, and_assoc] at h
        obtain ⟨hc, hr, hk, ha, -, hsub, hsg, hpc⟩ := h
        exact ⟨⟨fields, rfl⟩, hc, hr, hk, ha, hsub, hsg.imp id And.right, hpc.imp id And.right⟩
    | str s => simp [isValidCreateClusterArgs, jsTypeof] at h
    | num n => simp [isValidCreateClusterArgs, jsTypeof] at h
    | bool b => simp [isValidCreateClusterArgs, jsTypeof] at h
    | null => simp [isValidCreateClusterArgs, isNullJS] at h
    | undefined => simp [isValidCreateClusterArgs, jsTypeof] at h
    | arr xs => simp [isValidCreateClusterArgs, getField, jsTypeof] at h
  · intro h
    obtain ⟨⟨fields, rfl⟩, hc, hr, hk, ha, hsub, hsg, hpc⟩ := h
    simp [isValidCreateClusterArgs, jsTypeof_obj, isNullJS_obj, jsTypeof_string_iff,
      isJSArray_iff, isUndefJS_iff, jsEveryString_iff, and_assoc]
    exact ⟨hc, hr, hk, ha, hsub.isArr, hsub, hsg.imp id fun hx => ⟨hx.isArr, hx⟩,
      hpc.imp id fun hx => ⟨hx.isArr, hx⟩⟩

theorem isValidClusterStatusArgs_iff (args : JSValue) :
    isValidClusterStatusArgs args = true ↔ ClusterNameArgsSpec args := by
  constructor
  · intro h
    cases args with
    | obj fields =>
        simp [isValidClusterStatusArgs, jsTypeof_obj, isNullJS_obj, jsTypeof_string_iff,
          isUndefJS_iff, and_assoc] at h
        obtain ⟨hc, hr⟩ := h
        exact ⟨⟨fields, rfl⟩, hc, hr⟩
    | str s => simp [isValidClusterStatusArgs, jsTypeof] at h
    | num n => simp [isValidClusterStatusArgs, jsTypeof] at h
    | bool b => simp [isValidClusterStatusArgs, jsTypeof] at h
    | null => simp [isValidClusterStatusArgs, isNullJS] at h
    | undefined => simp [isValidClusterStatusArgs, jsTypeof] at h
    | arr xs => simp [isValidClusterStatusArgs, getField, jsTypeof] at h
  · intro h
    obtain ⟨⟨fields, rfl⟩, hc, hr⟩ := h
    simp [isValidClusterStatusArgs, jsTypeof_obj, isNullJS_obj, jsTypeof_string_iff,
      isUndefJS_iff, and_assoc]
    exact ⟨hc, hr⟩

theorem isValidDeleteClusterArgs_iff (args : JSValue) :
    isValidDeleteClusterArgs args = true ↔ ClusterNameArgsSpec args := by
  have h : isValidDeleteClusterArgs args = isValidClusterStatusArgs args := rfl
  rw [h]
  exact isValidClusterStatusArgs_iff args

theorem callToolRoute_create (args : JSValue) :
    callToolRoute "create_eks_cluster" args =
      if isValidCreateClusterArgs args then RouteResult.dispatched (ToolOp.createCluster args)
      else RouteResult.invalidParams "Invalid arguments for create_eks_cluster" := rfl

theorem callToolRoute_status (args : JSValue) :
    callToolRoute "get_eks_cluster_status" args =
      if isValidClusterStatusArgs args then RouteResult.dispatched (ToolOp.getClusterStatus args)
      else RouteResult.invalidParams "Invalid arguments for get_eks_cluster_status" := rfl

theorem callToolRoute_delete (args : JSValue) :
    callToolRoute "delete_eks_cluster" args =
      if isValidDeleteClusterArgs args then RouteResult.dispatched (ToolOp.deleteCluster args)
      else RouteResult.invalidParams "Invalid arguments for delete_eks_cluster" := rfl

/-- C2 counterexample: a well-typed `create_eks_cluster` argument object
whose `subnetIds` is the empty array passes `isValidCreateClusterArgs`
and is dispatched to the create operation — the validator enforces no
minimum length, so the claimed "array of strings of length >= 1" and the
claimed `InvalidParams` outcome for empty `subnetIds` are both false. -/
theorem create_args_empty_subnetIds_accepted :
    isValidCreateClusterArgs emptySubnetArgs = true ∧
    getField emptySubnetArgs "subnetIds" = JSValue.arr [] ∧
    callToolRoute "create_eks_cluster" emptySubnetArgs =
      RouteResult.dispatched (ToolOp.createCluster emptySubnetArgs) := by
  refine ⟨rfl, rfl, rfl⟩

/-- C2 (amended): `callTool` with tool name `create_eks_cluster`
dispatches the raw arguments to the create operation exactly when
`clusterName`, `region`, `kubernetesVersion` and `roleArn` are strings
and `subnetIds` is an array of strings of any length (empty permitted),
with the optional `securityGroupIds` and `publicAccessCidrs`, if
present, arrays of strings; every other argument object yields
`InvalidParams` and is not dispatched to any operation. -/
theorem create_args_validation_characterization (args : JSValue) :
    (callToolRoute "create_eks_cluster" args =
        RouteResult.dispatched (ToolOp.createCluster args) ↔ CreateClusterArgsSpec args) ∧
    (callToolRoute "create_eks_cluster" args =
        RouteResult.invalidParams "Invalid arguments for create_eks_cluster" ↔
      ¬ CreateClusterArgsSpec args) := by
  rw [callToolRoute_create]
  by_cases h : isValidCreateClusterArgs args = true
  · have hs := (isValidCreateClusterArgs_iff args).mp h
    rw [if_pos h]
    exact ⟨by simp [hs], by simp [hs]⟩
  · have hs : ¬ CreateClusterArgsSpec args := fun hspec =>
      h ((isValidCreateClusterArgs_iff args).mpr hspec)
    rw [if_neg h]
    exact ⟨by simp [hs], by simp [hs]⟩

/-- C2 witness: the amended characterization evaluated at the concrete
empty-`subnetIds` argument object, which is dispatched. -/
theorem create_args_validation_characterization_witness :
    callToolRoute "create_eks_cluster" emptySubnetArgs =
      RouteResult.dispatched (ToolOp.createCluster emptySubnetArgs) := by
  refine (create_args_validation_characterization emptySubnetArgs).1.mpr ?_
  exact ⟨⟨_, rfl⟩, ⟨"demo", rfl⟩, ⟨"us-east-1", rfl⟩, ⟨"1.28", rfl⟩,
    ⟨"arn:aws:iam::123456789012:role/eks", rfl⟩, ⟨[], rfl, by simp⟩, Or.inl rfl, Or.inl rfl⟩

/-- C5 counterexample: an argument object whose `clusterName` is the
empty string passes both `isValidClusterStatusArgs` and
`isValidDeleteClusterArgs` — the validators test only
`typeof clusterName === "string"`, never non-emptiness — and is
dispatched for both tools instead of yielding `InvalidParams`. -/
theorem cluster_name_empty_string_accepted :
    isValidClusterStatusArgs emptyNameArgs = true ∧
    isValidDeleteClusterArgs emptyNameArgs = true ∧
    getField emptyNameArgs "clusterName" = JSValue.str "" ∧
    callToolRoute "get_eks_cluster_status" emptyNameArgs =
      RouteResult.dispatched (ToolOp.getClusterStatus emptyNameArgs) ∧
    callToolRoute "delete_eks_cluster" emptyNameArgs =
      RouteResult.dispatched (ToolOp.deleteCluster emptyNameArgs) := by
  refine ⟨rfl, rfl, rfl, rfl, rfl⟩

/-- C5 (amended): for `get_eks_cluster_status` and `delete_eks_cluster`,
validation succeeds exactly when the arguments are an object whose
`clusterName` is a string — the empty string included — with `region`,
if present, a string; only argument objects outside that shape yield
`InvalidParams` and are never dispatched. -/
theorem cluster_name_args_validation_characterization (args : JSValue) :
    (callToolRoute "get_eks_cluster_status" args =
        RouteResult.dispatched (ToolOp.getClusterStatus args) ↔ ClusterNameArgsSpec args) ∧
    (callToolRoute "get_eks_cluster_status" args =
        RouteResult.invalidParams "Invalid arguments for get_eks_cluster_status" ↔
      ¬ ClusterNameArgsSpec args) ∧
    (callToolRoute "delete_eks_cluster" args =
        RouteResult.dispatched (ToolOp.deleteCluster args) ↔ ClusterNameArgsSpec args) ∧
    (callToolRoute "delete_eks_cluster" args =
        RouteResult.invalidParams "Invalid arguments for delete_eks_cluster" ↔
      ¬ ClusterNameArgsSpec args) := by
  rw [callToolRoute_status, callToolRoute_delete]
  by_cases h : isValidClusterStatusArgs args = true
  · have hd : isValidDeleteClusterArgs args = true := h
    have hs := (isValidClusterStatusArgs_iff args).mp h
    rw [if_pos h, if_pos hd]
    exact ⟨by simp [hs], by simp [hs], by simp [hs], by simp [hs]⟩
  · have hd : ¬ isValidDeleteClusterArgs args = true := h
    have hs : ¬ ClusterNameArgsSpec args := fun hspec =>
      h ((isValidClusterStatusArgs_iff args).mpr hspec)
    rw [if_neg h, if_neg hd]
    exact ⟨by simp [hs], by simp [hs], by simp [hs], by simp [hs]⟩

/-- C5 witness: the characterization evaluated at the concrete
empty-`clusterName` argument object, which is dispatched. -/
theorem cluster_name_args_validation_characterization_witness :
    callToolRoute "get_eks_cluster_status" emptyNameArgs =
      RouteResult.dispatched (ToolOp.getClusterStatus emptyNameArgs) := by
  refine (cluster_name_args_validation_characterization emptyNameArgs).1.mpr ?_
  exact ⟨⟨_, rfl⟩, ⟨"", rfl⟩, Or.inl rfl⟩

/-- C1: every create command built by `createCluster` has private and
public endpoint access both enabled, cluster logging enabled for exactly
the five log types (api, audit, authenticator, controllerManager,
scheduler), a present `publicAccessCidrs` passed through unchanged, and
an absent one defaulted to exactly `["0.0.0.0/0"]`. -/
theorem createCluster_command_defaults (request : CreateClusterRequest) :
    (buildCreateClusterCommand request).resourcesVpcConfig.endpointPrivateAccess = true ∧
    (buildCreateClusterCommand request).resourcesVpcConfig.endpointPublicAccess = true ∧
    (buildCreateClusterCommand request).logging.clusterLogging =
      [{ types := ["api", "audit", "authenticator", "controllerManager", "scheduler"],
         enabled := true }] ∧
    (∀ cidrs, request.publicAccessCidrs = some cidrs →
      (buildCreateClusterCommand request).resourcesVpcConfig.publicAccessCidrs = cidrs) ∧
    (request.publicAccessCidrs = none →
      (buildCreateClusterCommand request).resourcesVpcConfig.publicAccessCidrs = ["0.0.0.0/0"]) := by
  refine ⟨rfl, rfl, rfl, ?_, ?_⟩
  · intro cidrs h
    simp [buildCreateClusterCommand, jsOrArr, h]
  · intro h
    simp [buildCreateClusterCommand, jsOrArr, h]

/-- C1 witness: the defaults evaluated at a request with an explicit CIDR
list (passed through) and at one without (defaulted). -/
theorem createCluster_command_defaults_witness :
    (buildCreateClusterCommand passthroughRequest).resourcesVpcConfig.publicAccessCidrs =
      ["10.0.0.0/8"] ∧
    (buildCreateClusterCommand defaultCidrRequest).resourcesVpcConfig.publicAccessCidrs =
      ["0.0.0.0/0"] ∧
    (buildCreateClusterCommand passthroughRequest).resourcesVpcConfig.endpointPrivateAccess = true ∧
    (buildCreateClusterCommand passthroughRequest).resourcesVpcConfig.endpointPublicAccess = true :=
  ⟨(createCluster_command_defaults passthroughRequest).2.2.2.1 ["10.0.0.0/8"] rfl,
   (createCluster_command_defaults defaultCidrRequest).2.2.2.2 rfl,
   (createCluster_command_defaults passthroughRequest).1,
   (createCluster_command_defaults passthroughRequest).2.1⟩

/-- C3: with the control plane returning a list of names, `listClusters`
succeeds with exactly one entry per name; a name whose detail fetch
throws yields an entry with its name, the current region and status
UNKNOWN; a name whose detail fetch returns a cluster yields an entry
carrying that cluster's reported status. No per-name failure fails the
whole call. -/
theorem listClusters_partial_failure (st : ManagerState)
    (describe : String → Except String (Option Cluster)) (names : List String) :
    (EKSManager.listClusters st (Except.ok (some names)) describe =
      Except.ok (names.map (EKSManager.describeClusterEntry st.eksConfig.region describe))) ∧
    (names.map (EKSManager.describeClusterEntry st.eksConfig.region describe)).length =
      names.length ∧
    (∀ n e, describe n = Except.error e →
      EKSManager.describeClusterEntry st.eksConfig.region describe n =
        { name := n, region := st.eksConfig.region, status := "UNKNOWN" }) ∧
    (∀ n c, describe n = Except.ok (some c) →
      EKSManager.describeClusterEntry st.eksConfig.region describe n =
        { name := c.name, region := st.eksConfig.region, status := c.status }) := by
  refine ⟨rfl, by simp, ?_, ?_⟩
  · intro n e h
    simp [EKSManager.describeClusterEntry, h]
  · intro n c h
    simp [EKSManager.describeClusterEntry, h]

/-- C3 witness: the partial-failure behavior evaluated at two concrete
names, one of which fails to describe. -/
theorem listClusters_partial_failure_witness :
    EKSManager.describeClusterEntry "us-east-1" exDescribe "bad" =
      { name := "bad", region := "us-east-1", status := "UNKNOWN" } ∧
    EKSManager.describeClusterEntry "us-east-1" exDescribe "good" =
      { name := "good", region := "us-east-1", status := "ACTIVE" } ∧
    EKSManager.listClusters exState (Except.ok (some ["good", "bad"])) exDescribe =
      Except.ok [{ name := "good", region := "us-east-1", status := "ACTIVE" },
        { name := "bad", region := "us-east-1", status := "UNKNOWN" }] := by
  have h := listClusters_partial_failure exState exDescribe ["good", "bad"]
  exact ⟨h.2.2.1 "bad" "boom" rfl, h.2.2.2 "good" (exCluster "good") rfl, h.1⟩

/-- C4: a control-plane failure makes `createCluster` and `deleteCluster`
resolve — never reject — with a FAILURE status whose message wraps the
failure; the same failure makes the reads `getClusterStatus` and
`listClusters` reject with a wrapped thrown error and no partial result.
Whatever the control plane does, the two mutating operations resolve with
a SUCCESS or FAILURE status. -/
theorem mutating_catch_reads_propagate (st : ManagerState) (request : CreateClusterRequest)
    (clusterName : String) (region : Option String) (e : String)
    (describe : String → Except String (Option Cluster)) :
    ((EKSManager.createCluster st request (fun _ _ => Except.error e)).1 =
      Except.ok ⟨"FAILURE", "Failed to create cluster: " ++ e, none⟩) ∧
    ((EKSManager.deleteCluster st clusterName region (fun _ => Except.error e)).1 =
      Except.ok ⟨"FAILURE", "Failed to delete cluster: " ++ e, none⟩) ∧
    ((EKSManager.getClusterStatus st clusterName region (fun _ => Except.error e)).1 =
      Except.error ("Failed to get cluster status: " ++ e)) ∧
    (EKSManager.listClusters st (Except.error e) describe =
      Except.error ("Failed to list EKS clusters: " ++ e)) ∧
    (∀ send, ∃ op, (EKSManager.createCluster st request send).1 = Except.ok op ∧
      (op.status = "SUCCESS" ∨ op.status = "FAILURE")) ∧
    (∀ send2, ∃ op, (EKSManager.deleteCluster st clusterName region send2).1 = Except.ok op ∧
      (op.status = "SUCCESS" ∨ op.status = "FAILURE")) := by
  refine ⟨rfl, rfl, rfl, rfl, ?_, ?_⟩
  · intro send
    cases h : send (updateRegionForCreate st.eksConfig request.region)
        (buildCreateClusterCommand request) with
    | error e2 =>
        exact ⟨⟨"FAILURE", "Failed to create cluster: " ++ e2, none⟩,
          by simp [EKSManager.createCluster, h], Or.inr rfl⟩
    | ok oc =>
        cases oc with
        | none =>
            exact ⟨⟨"FAILURE",
              "Failed to create cluster: Failed to create cluster - no cluster data returned",
              none⟩, by simp [EKSManager.createCluster, h], Or.inr rfl⟩
        | some c =>
            exact ⟨⟨"SUCCESS",
              "Cluster " ++ request.clusterName ++ " creation initiated successfully",
              some (mapClusterToDetails c)⟩,
              by simp [EKSManager.createCluster, h], Or.inl rfl⟩
  · intro send2
    cases h : send2 (updateRegionIfProvided st.eksConfig region) with
    | error e2 =>
        exact ⟨⟨"FAILURE", "Failed to delete cluster: " ++ e2, none⟩,
          by simp [EKSManager.deleteCluster, h], Or.inr rfl⟩
    | ok u =>
        exact ⟨⟨"SUCCESS", "Cluster " ++ clusterName ++ " deletion initiated successfully", none⟩,
          by simp [EKSManager.deleteCluster, h], Or.inl rfl⟩

/-- C4 witness: the failure mapping evaluated at a concrete throttling
error. -/
theorem mutating_catch_reads_propagate_witness :
    (EKSManager.createCluster exState defaultCidrRequest (fun _ _ => Except.error "throttled")).1 =
      Except.ok ⟨"FAILURE", "Failed to create cluster: throttled", none⟩ ∧
    (EKSManager.getClusterStatus exState "demo" none (fun _ => Except.error "throttled")).1 =
      Except.error "Failed to get cluster status: throttled" := by
  have h := mutating_catch_reads_propagate exState defaultCidrRequest "demo" none "throttled"
    exDescribe
  exact ⟨h.1, h.2.2.1⟩

/-- C6: building the authenticated session always performs the STS
identity check first (the effect trace of `configureEKSAuth` starts with
it); when the identity check fails, the build aborts with the wrapped
authentication-configuration error and the trace holds no
token-construction event, so no bearer token is constructed or attached;
only a successful identity check reaches token construction, and the
token then lands in the session user entry. -/
theorem configureEKSAuth_identity_first (identResult : Except String CallerIdentity)
    (e : String) (b64 : String → String) (cd : ClusterDetails) (region : String) (now : Int) :
    ((configureEKSAuth identResult b64 cd region now).2.head? =
      some AuthEvent.getCallerIdentity) ∧
    (configureEKSAuth (getCallerIdentitySts (Except.error e)) b64 cd region now =
      (Except.error ("Failed to configure EKS authentication: " ++
          ("Failed to get caller identity: " ++ e)),
        [AuthEvent.getCallerIdentity])) ∧
    (∀ a b, AuthEvent.generateToken a b ∉
      (configureEKSAuth (getCallerIdentitySts (Except.error e)) b64 cd region now).2) ∧
    (∀ ident, identResult = Except.ok ident →
      ∃ kc, configureEKSAuth identResult b64 cd region now =
          (Except.ok kc, [AuthEvent.getCallerIdentity, AuthEvent.generateToken cd.name region,
            AuthEvent.loadKubeConfig]) ∧
        kc.users = [{ name := cd.name ++ "-user",
                      token := generateEKSToken b64 cd.name region now }]) := by
  refine ⟨?_, rfl, ?_, ?_⟩
  · cases identResult <;> rfl
  · intro a b hmem
    simp [configureEKSAuth, getCallerIdentitySts] at hmem
  · intro ident h
    subst h
    exact ⟨_, rfl, rfl⟩

/-- C6 witness: the identity-check-first behavior evaluated at a concrete
failing identity call and a concrete succeeding one. -/
theorem configureEKSAuth_identity_first_witness :
    (configureEKSAuth (getCallerIdentitySts (Except.error "no credentials")) id
        (mapClusterToDetails (exCluster "demo")) "us-east-1" 0 =
      (Except.error
          "Failed to configure EKS authentication: Failed to get caller identity: no credentials",
        [AuthEvent.getCallerIdentity])) ∧
    ((configureEKSAuth (Except.ok { account := none, arn := none, userId := none }) id
        (mapClusterToDetails (exCluster "demo")) "us-east-1" 0).2.head? =
      some AuthEvent.getCallerIdentity) := by
  have h1 := configureEKSAuth_identity_first
    (getCallerIdentitySts (Except.error "no credentials")) "no credentials" id
    (mapClusterToDetails (exCluster "demo")) "us-east-1" 0
  have h2 := configureEKSAuth_identity_first
    (Except.ok { account := none, arn := none, userId := none }) "x" id
    (mapClusterToDetails (exCluster "demo")) "us-east-1" 0
  exact ⟨h1.2.1, h2.1⟩

/-- C7: for an object created at time `created` and observed at
`now ≥ created`, the rendered age is `Nd` with `N` the floored day count
when that is at least 1, else `Nh` with `N` the floored hour count of the
full difference when that is at least 1, else `Nm` with `N` the floored
minute count of the full difference (so `0m` can render); a missing
creation timestamp renders `unknown`. -/
theorem calculateAge_rendering (created now : Int) :
    (calculateAge none now = "unknown") ∧
    (created ≤ now ∧ 1 ≤ Int.fdiv (now - created) 86400000 →
      calculateAge (some created) now = toString (Int.fdiv (now - created) 86400000) ++ "d") ∧
    (created ≤ now ∧ Int.fdiv (now - created) 86400000 < 1 ∧
        1 ≤ Int.fdiv (now - created) 3600000 →
      calculateAge (some created) now = toString (Int.fdiv (now - created) 3600000) ++ "h") ∧
    (created ≤ now ∧ Int.fdiv (now - created) 3600000 < 1 →
      calculateAge (some created) now = toString (Int.fdiv (now - created) 60000) ++ "m") := by
  have h864 : Int.fdiv (now - created) 86400000 = (now - created) / 86400000 :=
    Int.fdiv_eq_ediv _ (by norm_num)
  have h36 : Int.fdiv (now - created) 3600000 = (now - created) / 3600000 :=
    Int.fdiv_eq_ediv _ (by norm_num)
  refine ⟨rfl, ?_, ?_, ?_⟩
  · intro h
    obtain ⟨hle, h1⟩ := h
    simp only [calculateAge]
    rw [if_pos (by omega : Int.fdiv (now - created) 86400000 > 0)]
  · intro h
    obtain ⟨hle, hdlt, h1⟩ := h
    have hd0 : 0 ≤ now - created := by omega
    have hlt : now - created < 86400000 := by
      rw [h864] at hdlt
      omega
    have hmod : Int.tmod (now - created) 86400000 = now - created := by
      rw [Int.tmod_eq_emod hd0 (by norm_num)]
      omega
    simp only [calculateAge]
    rw [if_neg (by omega : ¬ Int.fdiv (now - created) 86400000 > 0), hmod,
      if_pos (by omega : Int.fdiv (now - created) 3600000 > 0)]
  · intro h
    obtain ⟨hle, h1⟩ := h
    have hd0 : 0 ≤ now - created := by omega
    have hlt : now - created < 3600000 := by
      rw [h36] at h1
      omega
    have hdays : Int.fdiv (now - created) 86400000 < 1 := by
      rw [h864]
      omega
    have hmod1 : Int.tmod (now - created) 86400000 = now - created := by
      rw [Int.tmod_eq_emod hd0 (by norm_num)]
      omega
    have hmod2 : Int.tmod (now - created) 3600000 = now - created := by
      rw [Int.tmod_eq_emod hd0 (by norm_num)]
      omega
    simp only [calculateAge]
    rw [if_neg (by omega : ¬ Int.fdiv (now - created) 86400000 > 0), hmod1,
      if_neg (by omega : ¬ Int.fdiv (now - created) 3600000 > 0), hmod2]

/-- C7 witness: the rendering evaluated 2 days 3 hours, 3 hours, and
30 minutes after creation, and at a missing timestamp. -/
theorem calculateAge_rendering_witness :
    calculateAge (some 0) 183600000 = "2d" ∧
    calculateAge (some 0) 10800000 = "3h" ∧
    calculateAge (some 0) 1800000 = "30m" ∧
    calculateAge none 5 = "unknown" := by
  refine ⟨?_, ?_, ?_, (calculateAge_rendering 0 5).1⟩
  · exact ((calculateAge_rendering 0 183600000).2.1 ⟨by norm_num, by decide⟩).trans (by decide)
  · exact ((calculateAge_rendering 0 10800000).2.2.1
      ⟨by norm_num, by decide, by decide⟩).trans (by decide)
  · exact ((calculateAge_rendering 0 1800000).2.2.2 ⟨by norm_num, by decide⟩).trans (by decide)

/-- C8 counterexample: a service whose load-balancer status carries an
empty ingress list is truthy for the ingress test, so the source reads
`ingress[0].ip` on `undefined` and throws — the projection is not total
and does not render `<pending>` there. -/
theorem getExternalIP_empty_ingress_throws :
    getExternalIP emptyIngressService = none ∧
    serviceLBIngress emptyIngressService = some [] :=
  ⟨rfl, rfl⟩

/-- C8 (amended): with a non-empty ingress list, the projected external
IP is the first ingress IP, falling back to its hostname, falling back to
`<pending>` (empty strings falsy); with an ingress list present but
empty, the projection throws (it yields no string); with no ingress
list, non-empty explicit external IPs are joined with commas, and
otherwise the projection is `<none>`; the throwing case is exactly the
present-but-empty ingress list. -/
theorem getExternalIP_cases (service : V1Service) :
    (∀ ingress rest, serviceLBIngress service = some (ingress :: rest) →
      getExternalIP service = some (jsOrStr ingress.ip (jsOrStr ingress.hostname "<pending>"))) ∧
    (serviceLBIngress service = some [] → getExternalIP service = none) ∧
    (∀ ips, serviceLBIngress service = none →
      service.spec.bind ServiceSpec.externalIPs = some ips → ips ≠ [] →
      getExternalIP service = some (String.intercalate "," ips)) ∧
    (serviceLBIngress service = none → service.spec.bind ServiceSpec.externalIPs = none →
      getExternalIP service = some "<none>") ∧
    (serviceLBIngress service = none → service.spec.bind ServiceSpec.externalIPs = some [] →
      getExternalIP service = some "<none>") ∧
    (getExternalIP service = none ↔ serviceLBIngress service = some []) := by
  refine ⟨?_, ?_, ?_, ?_, ?_, ?_⟩
  · intro ingress rest h
    simp [getExternalIP, h]
  · intro h
    simp [getExternalIP, h]
  · intro ips h1 h2 h3
    have hlen : 0 < ips.length := List.length_pos.mpr h3
    simp [getExternalIP, h1, h2, hlen]
  · intro h1 h2
    simp [getExternalIP, h1, h2]
  · intro h1 h2
    simp [getExternalIP, h1, h2]
  · cases h : serviceLBIngress service with
    | none =>
        cases h2 : service.spec.bind ServiceSpec.externalIPs with
        | none => simp [getExternalIP, h, h2]
        | some ips =>
            simp only [getExternalIP, h, h2]
            constructor
            · intro hx
              split at hx <;> simp_all
            · intro hx
              simp at hx
    | some ls =>
        cases ls with
        | nil => simp [getExternalIP, h]
        | cons i t => simp [getExternalIP, h]

/-- C8 witness: the cases evaluated at a service whose first ingress
carries an IP. -/
theorem getExternalIP_cases_witness :
    getExternalIP lbIpService = some "203.0.113.7" :=
  (getExternalIP_cases lbIpService).1 ⟨some "203.0.113.7", none⟩ [] rfl

theorem getClusterStatus_state_eq (st : ManagerState) (name : String) (region : Option String)
    (send : ClientConfig → Except String (Option Cluster)) :
    (EKSManager.getClusterStatus st name region send).2 =
      ⟨updateRegionIfProvided st.eksConfig region, st.stsConfig⟩ := by
  cases h : send (updateRegionIfProvided st.eksConfig region) with
  | error e => simp [EKSManager.getClusterStatus, h]
  | ok v => cases v <;> simp [EKSManager.getClusterStatus, h]

theorem deleteCluster_state_eq (st : ManagerState) (name : String) (region : Option String)
    (send : ClientConfig → Except String Unit) :
    (EKSManager.deleteCluster st name region send).2 =
      ⟨updateRegionIfProvided st.eksConfig region, st.stsConfig⟩ := by
  cases h : send (updateRegionIfProvided st.eksConfig region) with
  | error e => simp [EKSManager.deleteCluster, h]
  | ok u => simp [EKSManager.deleteCluster, h]

theorem createCluster_state_eq (st : ManagerState) (request : CreateClusterRequest)
    (send : ClientConfig → CreateClusterCommand → Except String (Option Cluster)) :
    (EKSManager.createCluster st request send).2 =
      ⟨updateRegionForCreate st.eksConfig request.region, st.stsConfig⟩ := by
  cases h : send (updateRegionForCreate st.eksConfig request.region)
      (buildCreateClusterCommand request) with
  | error e => simp [EKSManager.createCluster, h]
  | ok v => cases v <;> simp [EKSManager.createCluster, h]

/-- C9 counterexample: `getClusterStatus` and `deleteCluster` called with
the empty-string region — a region value different from the configured
`us-east-1` — do not replace the client: the guard
`region && region !== current` treats the empty string as falsy, so the
old region and the static construction credentials persist. -/
theorem region_empty_string_not_reconfigured :
    (EKSManager.getClusterStatus c9State "demo" (some "") (fun _ => Except.error "x")).2.eksConfig =
      { region := "us-east-1",
        credentials := some ⟨some "AKIAEXAMPLE", some "secretkey", none⟩ } ∧
    ("" : String) ≠ "us-east-1" ∧
    (EKSManager.deleteCluster c9State "demo" (some "") (fun _ => Except.error "x")).2.eksConfig =
      { region := "us-east-1",
        credentials := some ⟨some "AKIAEXAMPLE", some "secretkey", none⟩ } := by
  refine ⟨rfl, by decide, rfl⟩

/-- C9 (amended): a non-empty region different from the configured one
makes `getClusterStatus` and `deleteCluster` replace the EKS client by
one configured with that region only — the static construction
credentials are not carried over — while `createCluster` replaces it on
any differing request region; a call that provides no region leaves the
client untouched, so a previously switched region stays in effect (the
STS client is never replaced). -/
theorem region_reconfiguration (st : ManagerState) (r : String) (name : String)
    (request : CreateClusterRequest)
    (send : ClientConfig → Except String (Option Cluster))
    (send2 : ClientConfig → Except String Unit)
    (send3 : ClientConfig → CreateClusterCommand → Except String (Option Cluster)) :
    (r ≠ "" ∧ r ≠ st.eksConfig.region →
      (EKSManager.getClusterStatus st name (some r) send).2 =
        ⟨{ region := r, credentials := none }, st.stsConfig⟩) ∧
    (r ≠ "" ∧ r ≠ st.eksConfig.region →
      (EKSManager.deleteCluster st name (some r) send2).2 =
        ⟨{ region := r, credentials := none }, st.stsConfig⟩) ∧
    (request.region ≠ st.eksConfig.region →
      (EKSManager.createCluster st request send3).2 =
        ⟨{ region := request.region, credentials := none }, st.stsConfig⟩) ∧
    ((EKSManager.getClusterStatus st name none send).2 = st) ∧
    ((EKSManager.deleteCluster st name none send2).2 = st) := by
  refine ⟨?_, ?_, ?_, ?_, ?_⟩
  · intro h
    obtain ⟨h1, h2⟩ := h
    rw [getClusterStatus_state_eq]
    simp [updateRegionIfProvided, h1, h2]
  · intro h
    obtain ⟨h1, h2⟩ := h
    rw [deleteCluster_state_eq]
    simp [updateRegionIfProvided, h1, h2]
  · intro h
    rw [createCluster_state_eq]
    simp [updateRegionForCreate, h]
  · rw [getClusterStatus_state_eq]
    rfl
  · rw [deleteCluster_state_eq]
    rfl

/-- C9 witness: the reconfiguration evaluated at a concrete switch from
`us-east-1` to `eu-west-1` (credentials dropped), and at a call without a
region (client untouched). -/
theorem region_reconfiguration_witness :
    (EKSManager.getClusterStatus c9State "demo" (some "eu-west-1")
        (fun _ => Except.error "x")).2 =
      ⟨{ region := "eu-west-1", credentials := none }, c9State.stsConfig⟩ ∧
    (EKSManager.getClusterStatus c9State "demo" none (fun _ => Except.error "x")).2 = c9State := by
  have h := region_reconfiguration c9State "eu-west-1" "demo" defaultCidrRequest
    (fun _ => Except.error "x") (fun _ => Except.error "x") (fun _ _ => Except.error "x")
  exact ⟨h.1 ⟨by decide, by decide⟩, h.2.2.2.1⟩

/-- C10: `listClusterDeployments` with the empty-string namespace applies
no filtering — it returns the same result as a call without a namespace
and as a call with the sentinel `all`; only a non-empty namespace other
than `all` filters, keeping exactly the objects whose namespace field
strictly equals it. -/
theorem listDeployments_namespace_filtering (csr : Except String ClusterDetails)
    (idr : Except String CallerIdentity) (b64 : String → String)
    (podsResult : Except String (List V1Pod)) (servicesResult : Except String (List V1Service))
    (region : Option String) (now : Int) (pods : List V1Pod) (services : List V1Service) :
    (listClusterDeployments csr idr b64 podsResult servicesResult region (some "") now =
      listClusterDeployments csr idr b64 podsResult servicesResult region none now) ∧
    (listClusterDeployments csr idr b64 podsResult servicesResult region (some "") now =
      listClusterDeployments csr idr b64 podsResult servicesResult region (some "all") now) ∧
    (targetNamespace (some "") = none) ∧
    (filterPodsByNamespace (targetNamespace (some "")) pods = pods) ∧
    (filterServicesByNamespace (targetNamespace (some "")) services = services) ∧
    (∀ ns, ns ≠ "" → ns ≠ "all" →
      targetNamespace (some ns) = some ns ∧
      filterPodsByNamespace (targetNamespace (some ns)) pods =
        pods.filter (fun pod => pod.metadata.bind (fun m => m.«namespace») == some ns) ∧
      filterServicesByNamespace (targetNamespace (some ns)) services =
        services.filter
          (fun service => service.metadata.bind (fun m => m.«namespace») == some ns)) := by
  refine ⟨rfl, rfl, rfl, rfl, rfl, ?_⟩
  intro ns h1 h2
  have ht : targetNamespace (some ns) = some ns := by
    simp [targetNamespace, h1, h2]
  rw [ht]
  exact ⟨rfl, rfl, rfl⟩

/-- C10 witness: the filtering equalities evaluated at a concrete call
with failing fetches and at the concrete namespace `kube-system`. -/
theorem listDeployments_namespace_filtering_witness :
    (listClusterDeployments (Except.error "e") (Except.error "i") id (Except.error "p")
        (Except.error "s") none (some "") 0 =
      listClusterDeployments (Except.error "e") (Except.error "i") id (Except.error "p")
        (Except.error "s") none none 0) ∧
    targetNamespace (some "kube-system") = some "kube-system" := by
  have h := listDeployments_namespace_filtering (Except.error "e") (Except.error "i") id
    (Except.error "p") (Except.error "s") none 0 [] []
  exact ⟨h.1, (h.2.2.2.2.2 "kube-system" (by decide) (by decide)).1⟩
